import Mathlib

/-!
Shallow embedding of the dbt-gemini-agent-starter tools:
`tools/dbt_translate.py` (file resolution, translation routing, dialect scan),
`sub_agents/dbt_model_analyzer.py` (schema classification) and
`tools/dbt_compile.py` (compile wrapper).

Modelling conventions:
* Python dict results are `Result := List (String × Value)` in key insertion
  order; `getKey` is dict lookup.
* The process environment is an `Env` (variable list plus current working
  directory), captured after `load_dotenv`.
* The file system is `FS : String → List FSFile`: for a root directory it
  yields the regular files below it in traversal order, each with its path
  relative to that root and its content; a read failure (corrupt or
  permission-denied file) is `Except.error msg`, standing for the exception
  `open(path).read()` would raise.
* External collaborators are opaque parameters: the Gemini call is
  `translator : String → String → String → Except String String`, the regex
  engine backing `re.compile(p, IGNORECASE).search(text)` is an oracle
  `String → String → Bool` (pattern, text), JSON parsing in the compile
  wrapper is `String → Option Value`, and the outcomes of creating the
  output directory and writing the output file are
  `mkdirFail writeFail : Option String` carrying the exception message on
  failure (the mkdir sits outside any try in the source, so its failure
  propagates as an uncaught exception, modelled as `Except.error`).
* Strings are treated as their character lists; `lowerStr` models
  `str.lower()` on the ASCII texts the tools handle.
-/

/-- A Python value as it appears in the result dictionaries of the tools. -/
inductive Value where
  | str : String → Value
  | num : Int → Value
  | null : Value
  | list : List Value → Value
  | dict : List (String × Value) → Value
deriving Repr

/-- A Python dict result, in key insertion order. -/
def Result := List (String × Value)

/-- Dict lookup (`r["k"]` / `r.get("k")`). -/
def getKey (r : Result) (k : String) : Option Value :=
  List.lookup k r

/-- Process environment after `load_dotenv`: variables plus `os.getcwd()`. -/
structure Env where
  vars : List (String × String)
  cwd : String

/-- `os.getenv(k, d)`. -/
def Env.getvarD (e : Env) (k d : String) : String :=
  (e.vars.lookup k).getD d

/-- `os.getenv(k)` (no default). -/
def Env.getvar (e : Env) (k : String) : Option String :=
  e.vars.lookup k

/-- A regular file: path relative to the enclosing root, and the outcome of
reading it (`Except.error` models the exception a read would raise). -/
structure FSFile where
  relPath : String
  content : Except String String

/-- File-system state: the files below a given root directory, in traversal
order. -/
def FS := String → List FSFile

/-- `listPrefixOf n h` : `n` is a prefix of `h` (character lists). -/
def listPrefixOf : List Char → List Char → Bool
  | [], _ => true
  | _ :: _, [] => false
  | a :: as, b :: bs => a == b && listPrefixOf as bs

/-- `listContains n h` : `n` occurs as a contiguous sublist of `h`. -/
def listContains (needle : List Char) : List Char → Bool
  | [] => listPrefixOf needle []
  | b :: bs => listPrefixOf needle (b :: bs) || listContains needle bs

/-- Python `needle in hay` on strings (substring test, equality included). -/
def strContains (hay needle : String) : Bool :=
  listContains needle.data hay.data

/-- Python `hay.startswith(pre)`. -/
def strStartsWith (hay pre : String) : Bool :=
  listPrefixOf pre.data hay.data

/-- Python `hay.endswith(suff)`. -/
def strEndsWith (hay suff : String) : Bool :=
  listPrefixOf suff.data.reverse hay.data.reverse

/-- Python `s.lower()` (ASCII). -/
def lowerStr (s : String) : String :=
  ⟨s.data.map Char.toLower⟩

/-- Python `s.replace(".sql", "")` on character lists: remove every
non-overlapping occurrence of `.sql`, scanning left to right. -/
def dropSqlOcc : List Char → List Char
  | [] => []
  | '.' :: 's' :: 'q' :: 'l' :: cs => dropSqlOcc cs
  | c :: cs => c :: dropSqlOcc cs

/-- `s.replace(".sql", "")`. -/
def removeSql (s : String) : String :=
  ⟨dropSqlOcc s.data⟩

/-- `pathlib.Path(p).name`: the last `/`-separated component. -/
def pathName (p : String) : String :=
  ⟨(p.data.reverse.takeWhile (fun c => c != '/')).reverse⟩

/-- `pathlib.Path` stem of a file *name*: drop the last `.`-suffix, except
when the name has no dot, starts with its only dot, or ends with the dot. -/
def stemOfName (name : String) : String :=
  let r := name.data.reverse
  let ext := r.takeWhile (fun c => c != '.')
  match r.dropWhile (fun c => c != '.') with
  | [] => name
  | _ :: before =>
    if before.isEmpty || ext.isEmpty then name else ⟨before.reverse⟩

/-- `pathlib.Path(p).stem`. -/
def stemOf (p : String) : String :=
  stemOfName (pathName p)

/-- Lexicographic (code-point) order on character lists, as Python `<=`. -/
def lexLe : List Char → List Char → Bool
  | [], _ => true
  | _ :: _, [] => false
  | a :: as, b :: bs => if a == b then lexLe as bs else decide (a < b)

/-- Python string `<=`. -/
def strLe (s t : String) : Bool :=
  lexLe s.data t.data

/-- Insert into an ascending list (used to model Python `sorted`). -/
def insertSorted (s : String) : List String → List String
  | [] => [s]
  | t :: ts => if strLe s t then s :: t :: ts else t :: insertSorted s ts

/-- Python `sorted` on strings (ascending code-point order). -/
def sortStrings : List String → List String
  | [] => []
  | s :: ss => insertSorted s (sortStrings ss)

/-- Python `list(set(xs))` for strings: drop duplicates (membership is all
that callers observe; the set's iteration order is arbitrary anyway). -/
def dedupStrs : List String → List String
  | [] => []
  | s :: ss => if ss.contains s then dedupStrs ss else s :: dedupStrs ss

/-- `os.path.join` / `pathlib` `/` for the shapes used in the tools. -/
def joinPath (a b : String) : String :=
  if a.isEmpty then b
  else if strEndsWith a "/" then a ++ b
  else a ++ "/" ++ b

/-- A single-quote character, for embedding the message strings of the tools. -/
def squote : String :=
  String.singleton (Char.ofNat 39)

/-- `WAREHOUSE_PATTERNS` from `tools/dbt_translate.py`: per warehouse, the
ordered list of dialect-fingerprint regular expressions (raw strings). -/
def WAREHOUSE_PATTERNS : List (String × List String) :=
  [("snowflake",
    ["\\bIFF\\s*\\(",
     "\\bFLATTEN\\s*\\(",
     "\\bLATERAL\\s+FLATTEN",
     "\\bVARIANT\\b",
     "\\bQUALIFY\\b",
     "\\$\\d+",
     "::\\s*VARIANT",
     "ARRAY_AGG\\s*\\([^)]*\\)\\s+WITHIN\\s+GROUP"]),
   ("bigquery",
    ["\\bSTRUCT\\s*\\(",
     "\\bARRAY\\s*\\[",
     "\\bUNNEST\\s*\\(",
     "\\bSAFE_CAST\\s*\\(",
     "\\bFORMAT_DATE\\s*\\(",
     "\\bPARSE_DATE\\s*\\(",
     "`[^`]+\\.[^`]+\\.[^`]+`",
     "\\bGENERATE_UUID\\s*\\("]),
   ("redshift",
    ["\\bDISTKEY\\b",
     "\\bSORTKEY\\b",
     "\\bCOPY\\s+",
     "\\bUNLOAD\\s+",
     "\\bLISTAGG\\s*\\(",
     "\\bDATEADD\\s*\\(",
     "\\bDATEDIFF\\s*\\(",
     "\\bGETDATE\\s*\\("]),
   ("postgres",
    ["::\\s*\\w+",
     "\\bGENERATE_SERIES\\s*\\(",
     "\\bARRAY_AGG\\s*\\(",
     "\\bSTRING_AGG\\s*\\(",
     "\\bREGEXP_MATCHES\\s*\\(",
     "\\bJSONB\\b",
     "\\bCROSSTAB\\s*\\("])]

/-- The project root the tools operate in:
`os.getenv("DBT_PROJECT_LOCATION", os.getcwd())`. -/
def projectRoot (env : Env) : String :=
  env.getvarD "DBT_PROJECT_LOCATION" env.cwd

/-- The fixed subdirectories searched by `_search_for_files` and the dialect
scan: `['models', 'macros', 'analyses', 'tests']`. -/
def searchDirs : List String :=
  ["models", "macros", "analyses", "tests"]

/-- The files of `files` that `dir_path.rglob` would yield for directory `d`
(their relative path starts with `d ++ "/"`). -/
def filesUnder (files : List FSFile) (d : String) : List FSFile :=
  files.filter (fun f => strStartsWith f.relPath (d ++ "/"))

/-- The candidate files visited by the search loops of `_search_for_files`:
for each searched directory in order, for each extension in order, the files
below that directory whose name ends with the extension. -/
def eligibleFiles (files : List FSFile) (extensions : List String) : List FSFile :=
  (searchDirs.map (fun d =>
    (extensions.map (fun ext =>
      (filesUnder files d).filter (fun f => strEndsWith f.relPath ext))).flatten)).flatten

/-- The per-file match test of `_search_for_files` (the three-way
`if`/`elif`/`elif` chain; every branch appends the same relative path). -/
def fileMatches (search_filename search_clean : String) (f : FSFile) : Bool :=
  let file_name_clean := lowerStr (stemOf f.relPath)
  if search_filename == file_name_clean || strContains file_name_clean search_filename then
    true
  else if search_clean == file_name_clean || strContains file_name_clean search_clean then
    true
  else
    strContains (lowerStr f.relPath) search_clean

/-- `_search_for_files` from `tools/dbt_translate.py`. The `dbt_root`
parameter is declared exactly as in the source; the walked directory is
`os.getenv("DBT_PROJECT_LOCATION", os.getcwd())`. Returns
`sorted(set(matches))`. -/
def _search_for_files (env : Env) (fs : FS) (dbt_root : String) (search_term : String)
    (extensions : List String := [".sql"]) : List String :=
  let dbt_path := projectRoot env
  let search_clean := removeSql (lowerStr search_term)
  let search_filename := removeSql (lowerStr (pathName search_term))
  let found :=
    ((eligibleFiles (fs dbt_path) extensions).filter
      (fun f => fileMatches search_filename search_clean f)).map (fun f => f.relPath)
  sortStrings (dedupStrs found)

/-- `source_file.exists()` for a path relative to the project root. -/
def findFile (files : List FSFile) (p : String) : Option FSFile :=
  files.find? (fun f => f.relPath == p)

/-- `open(source_file, 'r').read()` for a path relative to the project root. -/
def readFile (files : List FSFile) (p : String) : Except String String :=
  match findFile files p with
  | some f => f.content
  | none => Except.error "No such file or directory"

/-- The read / translate / mkdir / write tail of `dbt_translate`
(lines 173-231), entered once the source path is resolved to
`actual_file_path`. Reading, the Gemini call and the write are each wrapped
in try/except and yield structured error records, but
`translated_file.parent.mkdir(parents=True, exist_ok=True)` (line 210) sits
*outside* any try: a directory-creation failure after a successful
translation raises an uncaught exception and no record is returned —
modelled as `Except.error` with the collaborator outcome
`mkdirFail : Option String`. -/
def translateResolved (env : Env) (fs : FS)
    (translator : String → String → String → Except String String)
    (mkdirFail writeFail : Option String)
    (actual_file_path source_warehouse target_warehouse file_path : String) :
    Except String Result :=
  let dbt_project_location := projectRoot env
  match readFile (fs dbt_project_location) actual_file_path with
  | Except.error e =>
    Except.ok
      [("status", Value.str "error"),
       ("message", Value.str ("Error reading file: " ++ e)),
       ("translated_content", Value.null),
       ("saved_path", Value.null)]
  | Except.ok source_content =>
    match translator source_content source_warehouse target_warehouse with
    | Except.error e =>
      Except.ok
        [("status", Value.str "error"),
         ("message", Value.str ("Error during translation: " ++ e)),
         ("translated_content", Value.null),
         ("saved_path", Value.null)]
    | Except.ok translated_content =>
      match mkdirFail with
      | some e => Except.error e
      | none =>
        match writeFail with
        | some e =>
          Except.ok
            [("status", Value.str "error"),
             ("message", Value.str ("Error writing translated file: " ++ e)),
             ("translated_content", Value.str translated_content),
             ("saved_path", Value.null)]
        | none =>
          Except.ok
            [("status", Value.str "success"),
             ("message", Value.str ("Successfully translated " ++ actual_file_path ++
                " from " ++ source_warehouse ++ " to " ++ target_warehouse)),
             ("translated_content", Value.str translated_content),
             ("saved_path", Value.str (joinPath (joinPath (joinPath dbt_project_location
                "translated") target_warehouse) actual_file_path)),
             ("source_file", Value.str (joinPath dbt_project_location actual_file_path)),
             ("original_path",
              if file_path == actual_file_path then Value.null else Value.str file_path)]

/-- `dbt_translate` from `tools/dbt_translate.py`. `Except.error` models an
uncaught exception escaping the function (only the output-directory `mkdir`
of line 210 can raise one); every other path returns a record. -/
def dbt_translate (env : Env) (fs : FS)
    (translator : String → String → String → Except String String)
    (mkdirFail writeFail : Option String)
    (file_path source_warehouse target_warehouse : String) : Except String Result :=
  let dbt_project_location := projectRoot env
  if (findFile (fs dbt_project_location) file_path).isSome then
    translateResolved env fs translator mkdirFail writeFail file_path
      source_warehouse target_warehouse file_path
  else
    let suggestions := _search_for_files env fs dbt_project_location file_path
    if suggestions.isEmpty then
      Except.ok
        [("status", Value.str "error"),
         ("message", Value.str ("File not found at " ++ squote ++ file_path ++ squote ++
            ". No similar files found in the dbt project. Please provide the full path relative to the dbt project root.")),
         ("translated_content", Value.null),
         ("saved_path", Value.null),
         ("suggestions", Value.list [])]
    else if suggestions.length == 1 then
      translateResolved env fs translator mkdirFail writeFail (suggestions.headD "")
        source_warehouse target_warehouse file_path
    else
      Except.ok
        [("status", Value.str "clarification_needed"),
         ("message", Value.str ("File not found at exact path " ++ squote ++ file_path ++
            squote ++ ". Found " ++ toString suggestions.length ++
            " possible matches:\n  - " ++
            String.intercalate "\n  - " (suggestions.take 10) ++
            "\n\nPlease specify which file you want to translate using the full path from the list above.")),
         ("translated_content", Value.null),
         ("saved_path", Value.null),
         ("suggestions", Value.list ((suggestions.take 10).map Value.str)),
         ("original_path", Value.str file_path)]

/-- A dialect-scan candidate record (`dbt_identify_translation_candidates`,
lines 293-300). The dict key for `detected_labels` is `"detected_syntax"`. -/
structure Candidate where
  file : String
  full_path : String
  detected_labels : List String
  pattern_count : Nat
deriving Repr, DecidableEq

/-- The label reported for a matching pattern:
`patterns[i].split('#')[-1].strip() if '#' in str(patterns[i]) else patterns[i]`. -/
def patternDesc (pat : String) : String :=
  if strContains pat "#" then ((pat.splitOn "#").getLastD pat).trim
  else pat

/-- The labels detected in one file body: for each pattern in order, if the
regex oracle finds it in the content, its description. -/
def detectFile (oracle : String → String → Bool) (patterns : List String)
    (content : String) : List String :=
  (patterns.filter (fun p => oracle p content)).map patternDesc

/-- The per-file loop of the dialect scan: a file whose read fails is skipped
(`except: continue`), a file with no detected pattern is skipped, any other
file becomes a `Candidate`. -/
def scanLoop (oracle : String → String → Bool) (root : String)
    (patterns : List String) : List FSFile → List Candidate
  | [] => []
  | f :: rest =>
    match f.content with
    | Except.error _ => scanLoop oracle root patterns rest
    | Except.ok content =>
      let detected := detectFile oracle patterns content
      if detected.isEmpty then scanLoop oracle root patterns rest
      else
        { file := f.relPath,
          full_path := joinPath root f.relPath,
          detected_labels := dedupStrs detected,
          pattern_count := detected.length } :: scanLoop oracle root patterns rest

/-- Stable insertion for `candidates.sort(key=..., reverse=True)`. -/
def insertCand (c : Candidate) : List Candidate → List Candidate
  | [] => [c]
  | d :: ds =>
    if d.pattern_count > c.pattern_count then d :: insertCand c ds else c :: d :: ds

/-- `candidates.sort(key=lambda x: x['pattern_count'], reverse=True)`
(stable, descending). -/
def sortCands : List Candidate → List Candidate
  | [] => []
  | c :: cs => insertCand c (sortCands cs)

/-- The scan-eligible files: `.sql` files below the four searched dirs. -/
def scanEligible (files : List FSFile) : List FSFile :=
  (searchDirs.map (fun d =>
    (filesUnder files d).filter (fun f => strEndsWith f.relPath ".sql"))).flatten

/-- The dict encoding of a `Candidate`. -/
def candValue (c : Candidate) : Value :=
  Value.dict
    [("file", Value.str c.file),
     ("full_path", Value.str c.full_path),
     ("detected_syntax", Value.list (c.detected_labels.map Value.str)),
     ("pattern_count", Value.num (Int.ofNat c.pattern_count))]

/-- `dbt_identify_translation_candidates` from `tools/dbt_translate.py`. -/
def dbt_identify_translation_candidates (oracle : String → String → Bool)
    (env : Env) (fs : FS)
    (source_warehouse : String) (target_warehouse : Option String) : Result :=
  match WAREHOUSE_PATTERNS.lookup (lowerStr source_warehouse) with
  | none =>
    [("status", Value.str "error"),
     ("message", Value.str ("Unknown source warehouse " ++ squote ++ source_warehouse ++
        squote ++ ". Supported: " ++
        String.intercalate ", " (WAREHOUSE_PATTERNS.map (fun p => p.1)))),
     ("candidates", Value.list [])]
  | some patterns =>
    let dbt_project_location := projectRoot env
    let candidates :=
      sortCands (scanLoop oracle dbt_project_location patterns
        (scanEligible (fs dbt_project_location)))
    if candidates.isEmpty then
      [("status", Value.str "success"),
       ("message", Value.str ("No " ++ source_warehouse ++
          "-specific syntax detected in the dbt project. Your project may already be warehouse-agnostic or using a different warehouse syntax.")),
       ("candidates", Value.list []),
       ("source_warehouse", Value.str source_warehouse),
       ("target_warehouse", match target_warehouse with
         | some t => Value.str t
         | none => Value.null)]
    else
      [("status", Value.str "success"),
       ("message", Value.str ("Found " ++ toString candidates.length ++ " file(s) with " ++
          source_warehouse ++ "-specific syntax that may need translation" ++
          (match target_warehouse with
           | some t => " to " ++ t
           | none => "") ++ ".")),
       ("candidates", Value.list (candidates.map candValue)),
       ("total_files", Value.num (Int.ofNat candidates.length)),
       ("source_warehouse", Value.str source_warehouse),
       ("target_warehouse", match target_warehouse with
         | some t => Value.str t
         | none => Value.null)]

/-- The four naive-heuristic increments of `analyze_dbt_schema` for one
already-lower-cased file body: (star_schema, snowflake_schema, data_vault). -/
def fileScores (sql : String) : Nat × Nat × Nat :=
  let star1 := if strContains sql "join" && strContains sql " on " then 1 else 0
  let vault := if strContains sql "hub_" || strContains sql "link_" || strContains sql "sat_"
    then 1 else 0
  let star2 := if strContains sql "dim_" || strContains sql "fact_" then 1 else 0
  let snow := if strContains sql "bridge_" || strContains sql "snowflake_" then 1 else 0
  (star1 + star2, snow, vault)

/-- The `os.walk` loop of `analyze_dbt_schema`: every `.sql` file is read with
`open(path).read()` — a read failure raises, aborting the whole loop. -/
def classifyLoop : List FSFile → Nat × Nat × Nat → Except String (Nat × Nat × Nat)
  | [], acc => Except.ok acc
  | f :: rest, acc =>
    if strEndsWith f.relPath ".sql" then
      match f.content with
      | Except.error e => Except.error e
      | Except.ok sql =>
        let s := fileScores (lowerStr sql)
        classifyLoop rest (acc.1 + s.1, acc.2.1 + s.2.1, acc.2.2 + s.2.2)
    else classifyLoop rest acc

/-- Python `max(patterns, key=patterns.get)`: the first key attaining the
maximum value, scanning in insertion order (a later key replaces the current
best only when strictly greater). -/
def maxKeyAux (best : String × Nat) : List (String × Nat) → String
  | [] => best.1
  | q :: qs => if q.2 > best.2 then maxKeyAux q qs else maxKeyAux best qs

/-- `max` over the scores dict, in declared key order. -/
def maxKey : List (String × Nat) → String
  | [] => ""
  | p :: ps => maxKeyAux p ps

/-- Python `a or b` for the optional project dir (empty strings are falsy). -/
def orFalsy : Option String → Option String → Option String
  | some s, b => if s.isEmpty then b else some s
  | none, b => b

/-- `analyze_dbt_schema` from `sub_agents/dbt_model_analyzer.py`. The result
is `Except`: an uncaught exception (unreadable file, or a missing project
dir making `os.path.join` raise) is `Except.error`. -/
def analyze_dbt_schema (env : Env) (fs : FS) (project_dir : Option String) :
    Except String Result :=
  match orFalsy project_dir (env.getvar "DBT_PROJECT_LOCATION") with
  | none => Except.error "TypeError: expected str, bytes or os.PathLike object, not NoneType"
  | some pd =>
    let target_dir := joinPath pd "target/compiled"
    match classifyLoop (fs target_dir) (0, 0, 0) with
    | Except.error e => Except.error e
    | Except.ok scores =>
      let guess := maxKey
        [("star_schema", scores.1),
         ("snowflake_schema", scores.2.1),
         ("data_vault", scores.2.2)]
      Except.ok
        [("analysis", Value.dict
           [("star_schema", Value.num (Int.ofNat scores.1)),
            ("snowflake_schema", Value.num (Int.ofNat scores.2.1)),
            ("data_vault", Value.num (Int.ofNat scores.2.2))]),
         ("likely_modeling_pattern", Value.str guess)]

/-- `dbt_compile` from `tools/dbt_compile.py`. The subprocess is an external
collaborator: its return code and output lines are inputs, and `json.loads`
is the oracle `jsonParse` (`none` models a `JSONDecodeError`, silently
dropped). The unused `compile` string parameter is as in the source. -/
def dbt_compile (jsonParse : String → Option Value) (env : Env)
    (compile : String) (returncode : Int)
    (stdoutLines stderrLines : List String) : Result :=
  let logs := (stdoutLines ++ stderrLines).filterMap jsonParse
  [("returncode", Value.num returncode),
   ("logs", Value.list logs)]

/-! Concrete fixtures used by witnesses and counterexamples. -/

/-- An environment whose project location is `/proj`. -/
def env0 : Env := ⟨[("DBT_PROJECT_LOCATION", "/proj")], "/cwd"⟩

/-- An empty project tree. -/
def fsEmpty : FS := fun _ => []

/-- A project holding one model `models/xy.sql`. -/
def fs3 : FS := fun d =>
  if d == "/proj" then [⟨"models/xy.sql", Except.ok ""⟩] else []

/-- A project holding one model `models/staging/stg_users.sql`. -/
def fs6 : FS := fun d =>
  if d == "/proj" then [⟨"models/staging/stg_users.sql", Except.ok "select 1"⟩] else []

/-- A compiled tree with a star-schema pair of models. -/
def fs5 : FS := fun d =>
  if d == "/proj/target/compiled" then
    [⟨"models/dim_customers.sql", Except.ok "select * from dim_customers"⟩,
     ⟨"models/fact_orders.sql", Except.ok "select * from fact_orders"⟩]
  else []

/-- A compiled tree whose first model file cannot be read. -/
def fsBad : FS := fun d =>
  if d == "/proj/target/compiled" then
    [⟨"models/bad.sql", Except.error "Permission denied"⟩,
     ⟨"models/good.sql", Except.ok "select 1"⟩]
  else []

/-- A regex oracle that matches nothing. -/
def oracleNone : String → String → Bool := fun _ _ => false

/-- A regex oracle that matches everything. -/
def oracleAll : String → String → Bool := fun _ _ => true

/-- A translation collaborator that always succeeds with a fixed text. -/
def trOk : String → String → String → Except String String :=
  fun _ _ _ => Except.ok "TRANSLATED"

/-- The per-file match predicate exactly as claim C3 words it: lower-case the
term, strip a trailing `.sql` only if present (a `.sql` elsewhere is left
intact), and qualify a file iff the normalized term equals the lower-cased
stem, or is a substring of the stem, or is a substring of the lower-cased
relative path. Stated from the claim, for comparison with `fileMatches`. -/
def claimMatches (term relPath : String) : Bool :=
  let lt := lowerStr term
  let norm := if strEndsWith lt ".sql" then ⟨lt.data.take (lt.data.length - 4)⟩ else lt
  let stem := lowerStr (stemOf relPath)
  (stem == norm) || strContains stem norm || strContains (lowerStr relPath) norm

/-- The snowflake pattern list of the catalog. -/
def snowPats : List String := (WAREHOUSE_PATTERNS.lookup "snowflake").getD []

/-- The candidate the scan produces for a single all-matching snowflake file. -/
def cand8 : Candidate :=
  { file := "models/a.sql", full_path := "/proj/models/a.sql",
    detected_labels := snowPats, pattern_count := 8 }

/-! Helper lemmas shared by the claim theorems. -/

theorem listPrefixOf_self : ∀ l : List Char, listPrefixOf l l = true
  | [] => rfl
  | a :: as => by simp [listPrefixOf, listPrefixOf_self as]

theorem listContains_self : ∀ l : List Char, listContains l l = true
  | [] => rfl
  | b :: bs => by simp [listContains, listPrefixOf_self]

theorem strContains_self (s : String) : strContains s s = true :=
  listContains_self s.data

theorem beq_or_contains (a b : String) :
    (a == b || strContains b a) = strContains b a := by
  cases h : a == b with
  | false => simp
  | true => simp_all [strContains_self, eq_of_beq h]

theorem mem_of_containsStr {l : List String} {a : String} (h : l.contains a = true) :
    a ∈ l := by
  simpa using h

theorem mem_dedupStrs {a : String} : ∀ {l : List String}, a ∈ dedupStrs l ↔ a ∈ l := by
  intro l
  induction l with
  | nil => simp [dedupStrs]
  | cons s ss ih =>
    by_cases h : ss.contains s = true
    · simp only [dedupStrs, h, if_pos rfl]
      constructor
      · intro ha; exact List.mem_cons_of_mem _ (ih.mp ha)
      · intro ha
        rcases List.mem_cons.mp ha with rfl | ha
        · exact ih.mpr (mem_of_containsStr h)
        · exact ih.mpr ha
    · have hs : s ∉ ss := fun hm => h (by simpa using hm)
      simp [dedupStrs, hs, List.mem_cons, ih]

theorem dedupStrs_self : ∀ {l : List String}, l.Nodup → dedupStrs l = l := by
  intro l
  induction l with
  | nil => intro _; rfl
  | cons s ss ih =>
    intro h
    rcases List.nodup_cons.mp h with ⟨hs, hss⟩
    simp [dedupStrs, ih hss, hs]

theorem mem_insertSorted {a s : String} : ∀ {l : List String},
    a ∈ insertSorted s l ↔ a = s ∨ a ∈ l := by
  intro l
  induction l with
  | nil => simp [insertSorted]
  | cons t ts ih =>
    by_cases h : strLe s t = true
    · simp [insertSorted, h, List.mem_cons]
    · have h' : strLe s t = false := by simpa using h
      simp only [insertSorted, h', Bool.false_eq_true, if_false, List.mem_cons, ih]
      tauto

theorem mem_sortStrings {a : String} : ∀ {l : List String},
    a ∈ sortStrings l ↔ a ∈ l := by
  intro l
  induction l with
  | nil => simp [sortStrings]
  | cons s ss ih =>
    simp [sortStrings, mem_insertSorted, ih]

theorem fileMatches_eq (sf sc : String) (f : FSFile) :
    fileMatches sf sc f =
      (strContains (lowerStr (stemOf f.relPath)) sf ||
       strContains (lowerStr (stemOf f.relPath)) sc ||
       strContains (lowerStr f.relPath) sc) := by
  unfold fileMatches
  dsimp only
  rw [beq_or_contains sf, beq_or_contains sc]
  cases h1 : strContains (lowerStr (stemOf f.relPath)) sf <;>
    cases h2 : strContains (lowerStr (stemOf f.relPath)) sc <;>
      simp [h1, h2]

theorem mem_insertCand {a c : Candidate} : ∀ {l : List Candidate},
    a ∈ insertCand c l ↔ a = c ∨ a ∈ l := by
  intro l
  induction l with
  | nil => simp [insertCand]
  | cons d ds ih =>
    by_cases h : d.pattern_count > c.pattern_count
    · simp only [insertCand, if_pos h, List.mem_cons, ih]
      tauto
    · simp only [insertCand, if_neg h, List.mem_cons]

theorem mem_sortCands {a : Candidate} : ∀ {l : List Candidate},
    a ∈ sortCands l ↔ a ∈ l := by
  intro l
  induction l with
  | nil => simp [sortCands]
  | cons c cs ih =>
    simp [sortCands, mem_insertCand, ih]

theorem classifyLoop_no_sql : ∀ {l : List FSFile} (acc : Nat × Nat × Nat),
    (∀ f ∈ l, strEndsWith f.relPath ".sql" = false) →
    classifyLoop l acc = Except.ok acc := by
  intro l
  induction l with
  | nil => intro acc _; rfl
  | cons f rest ih =>
    intro acc h
    have hf := h f (List.mem_cons_self f rest)
    simp only [classifyLoop, hf, Bool.false_eq_true, if_false]
    exact ih acc (fun g hg => h g (List.mem_cons_of_mem f hg))

theorem classifyLoop_error : ∀ {xs : List FSFile} (bad : FSFile) (ys : List FSFile)
    (acc : Nat × Nat × Nat) (e : String),
    (∀ f ∈ xs, f.content.isOk = true ∨ strEndsWith f.relPath ".sql" = false) →
    bad.content = Except.error e → strEndsWith bad.relPath ".sql" = true →
    classifyLoop (xs ++ bad :: ys) acc = Except.error e := by
  intro xs
  induction xs with
  | nil =>
    intro bad ys acc e _ hbad hsql
    simp [classifyLoop, hsql, hbad]
  | cons f rest ih =>
    intro bad ys acc e h hbad hsql
    have hf := h f (List.mem_cons_self f rest)
    have hrest : ∀ g ∈ rest, g.content.isOk = true ∨ strEndsWith g.relPath ".sql" = false :=
      fun g hg => h g (List.mem_cons_of_mem f hg)
    rcases hf with hok | hns
    · rcases hcontent : f.content with e' | s
      · rw [hcontent] at hok; simp [Except.isOk, Except.toBool] at hok
      · by_cases hfs : strEndsWith f.relPath ".sql" = true
        · simp only [List.cons_append, classifyLoop, hfs, if_pos rfl, hcontent]
          exact ih bad ys _ e hrest hbad hsql
        · have hfs' : strEndsWith f.relPath ".sql" = false := by simpa using hfs
          simp only [List.cons_append, classifyLoop, hfs', Bool.false_eq_true, if_false]
          exact ih bad ys acc e hrest hbad hsql
    · simp only [List.cons_append, classifyLoop, hns, Bool.false_eq_true, if_false]
      exact ih bad ys acc e hrest hbad hsql

theorem scanLoop_skip_error (oracle : String → String → Bool) (root : String)
    (patterns : List String) :
    ∀ (xs : List FSFile) (bad : FSFile) (ys : List FSFile) (e : String),
    bad.content = Except.error e →
    scanLoop oracle root patterns (xs ++ bad :: ys) =
      scanLoop oracle root patterns (xs ++ ys) := by
  intro xs
  induction xs with
  | nil =>
    intro bad ys e hbad
    simp only [List.nil_append, scanLoop, hbad]
  | cons f rest ih =>
    intro bad ys e hbad
    have ihx := ih bad ys e hbad
    simp only [List.cons_append, scanLoop]
    rcases hc : f.content with e' | s <;> simp [ihx]

theorem translateResolved_status (env : Env) (fs : FS)
    (translator : String → String → String → Except String String)
    (mkdirFail writeFail : Option String) (a sw tw fp : String) :
    ∀ (r : Result),
      translateResolved env fs translator mkdirFail writeFail a sw tw fp = Except.ok r →
      (getKey r "status" = some (Value.str "success") ∨
       getKey r "status" = some (Value.str "error")) ∧
      (getKey r "message").isSome = true := by
  intro r hr
  rcases h : readFile (fs (projectRoot env)) a with e | sc
  · simp only [translateResolved, h] at hr
    have hx := Except.ok.inj hr
    subst hx
    exact ⟨Or.inr rfl, rfl⟩
  · rcases h2 : translator sc sw tw with e | tc
    · simp only [translateResolved, h, h2] at hr
      have hx := Except.ok.inj hr
      subst hx
      exact ⟨Or.inr rfl, rfl⟩
    · rcases mkdirFail with _ | e3
      · rcases writeFail with _ | e
        · simp only [translateResolved, h, h2] at hr
          have hx := Except.ok.inj hr
          subst hx
          exact ⟨Or.inl rfl, rfl⟩
        · simp only [translateResolved, h, h2] at hr
          have hx := Except.ok.inj hr
          subst hx
          exact ⟨Or.inr rfl, rfl⟩
      · simp only [translateResolved, h, h2] at hr
        exact Except.noConfusion hr

theorem maxKey_closed (s sn dv : Nat) :
    maxKey [("star_schema", s), ("snowflake_schema", sn), ("data_vault", dv)] =
      (if sn ≤ s ∧ dv ≤ s then "star_schema"
       else if s < sn ∧ dv ≤ sn then "snowflake_schema"
       else "data_vault") := by
  simp only [maxKey, maxKeyAux]
  split_ifs <;> first | rfl | (exfalso; omega)

theorem descs_nodup (w : String) (pats : List String)
    (h : WAREHOUSE_PATTERNS.lookup w = some pats) :
    (pats.map patternDesc).Nodup := by
  simp only [WAREHOUSE_PATTERNS, List.lookup] at h
  split at h
  · cases h; decide
  · split at h
    · cases h; decide
    · split at h
      · cases h; decide
      · split at h
        · cases h; decide
        · cases h

theorem scanLoop_count (oracle : String → String → Bool) (root : String)
    (patterns : List String) (hnd : (patterns.map patternDesc).Nodup) :
    ∀ (files : List FSFile) (c : Candidate), c ∈ scanLoop oracle root patterns files →
      c.pattern_count = c.detected_labels.length := by
  intro files
  induction files with
  | nil => intro c hc; cases hc
  | cons f rest ih =>
    intro c hc
    rcases hcontent : f.content with e | content
    · simp only [scanLoop, hcontent] at hc
      exact ih c hc
    · simp only [scanLoop, hcontent] at hc
      by_cases hemp : (detectFile oracle patterns content).isEmpty = true
      · rw [if_pos hemp] at hc
        exact ih c hc
      · rw [if_neg hemp] at hc
        rcases List.mem_cons.mp hc with rfl | hcr
        · have hnodup : (detectFile oracle patterns content).Nodup := by
            have hsub : List.Sublist
                ((patterns.filter (fun p => oracle p content)).map patternDesc)
                (patterns.map patternDesc) :=
              List.Sublist.map patternDesc (List.filter_sublist patterns)
            exact List.Nodup.sublist hsub hnd
          show (detectFile oracle patterns content).length =
            (dedupStrs (detectFile oracle patterns content)).length
          rw [dedupStrs_self hnodup]
        · exact ih c hcr

/-! Claim theorems. -/

/-- C10: the result of `_search_for_files` is independent of its `dbt_root`
argument — with the same file-system state, environment and search term, any
two values of `dbt_root` give identical output, because the walked directory
comes from the `DBT_PROJECT_LOCATION` environment variable (defaulting to the
current working directory) and the parameter is never read. -/
theorem claim_C10_search_ignores_dbt_root (env : Env) (fs : FS) (term : String)
    (root1 root2 : String) (extensions : List String) :
    _search_for_files env fs root1 term extensions =
      _search_for_files env fs root2 term extensions := rfl

/-- C4: on a compiled directory that is missing or has no `.sql` files,
`analyze_dbt_schema` returns all-zero scores and the default guess
`star_schema` without signalling an error; and in general the guess is the
earliest label (in the declared order star_schema, snowflake_schema,
data_vault) attaining the maximum score — ties go to the earlier label. -/
theorem claim_C4_classify_empty_default (env : Env) (fs : FS) (pd : String)
    (hpd : pd.isEmpty = false)
    (hnosql : ∀ f ∈ fs (joinPath pd "target/compiled"),
      strEndsWith f.relPath ".sql" = false) :
    analyze_dbt_schema env fs (some pd) = Except.ok
      [("analysis", Value.dict
         [("star_schema", Value.num 0), ("snowflake_schema", Value.num 0),
          ("data_vault", Value.num 0)]),
       ("likely_modeling_pattern", Value.str "star_schema")] ∧
    ∀ s sn dv : Nat,
      maxKey [("star_schema", s), ("snowflake_schema", sn), ("data_vault", dv)] =
        (if sn ≤ s ∧ dv ≤ s then "star_schema"
         else if s < sn ∧ dv ≤ sn then "snowflake_schema"
         else "data_vault") := by
  constructor
  · have hcl := classifyLoop_no_sql (l := fs (joinPath pd "target/compiled")) (0, 0, 0) hnosql
    simp only [analyze_dbt_schema, orFalsy, hpd, Bool.false_eq_true, if_false, hcl]
    rfl
  · exact maxKey_closed

/-- Witness for C4 at a concretely empty compiled tree. -/
theorem claim_C4_witness :
    analyze_dbt_schema env0 fsEmpty (some "/p") = Except.ok
      [("analysis", Value.dict
         [("star_schema", Value.num 0), ("snowflake_schema", Value.num 0),
          ("data_vault", Value.num 0)]),
       ("likely_modeling_pattern", Value.str "star_schema")] ∧
    ∀ s sn dv : Nat,
      maxKey [("star_schema", s), ("snowflake_schema", sn), ("data_vault", dv)] =
        (if sn ≤ s ∧ dv ≤ s then "star_schema"
         else if s < sn ∧ dv ≤ sn then "snowflake_schema"
         else "data_vault") :=
  claim_C4_classify_empty_default env0 fsEmpty "/p" rfl (by decide)

/-- C5: a single file whose lower-cased text contains `join` together with
` on ` and at least one of `dim_` / `fact_` contributes exactly 2 to the
star_schema score (the two star rules are additive, not per-file
deduplicated); and the concrete two-model star project
(`models/dim_customers.sql`, `models/fact_orders.sql`) classifies as
star_schema with score 2 and the other scores 0. -/
theorem claim_C5_star_double_count (sql : String)
    (h1 : strContains sql "join" = true)
    (h2 : strContains sql " on " = true)
    (h3 : (strContains sql "dim_" || strContains sql "fact_") = true) :
    (fileScores sql).1 = 2 ∧
    analyze_dbt_schema env0 fs5 (some "/proj") = Except.ok
      [("analysis", Value.dict
         [("star_schema", Value.num 2), ("snowflake_schema", Value.num 0),
          ("data_vault", Value.num 0)]),
       ("likely_modeling_pattern", Value.str "star_schema")] := by
  constructor
  · simp [fileScores, h1, h2, h3]
  · rfl

/-- Witness for C5 at a concrete double-counting file body. -/
theorem claim_C5_witness :
    (fileScores "select a from x join dim_y on a.id = b.id").1 = 2 ∧
    analyze_dbt_schema env0 fs5 (some "/proj") = Except.ok
      [("analysis", Value.dict
         [("star_schema", Value.num 2), ("snowflake_schema", Value.num 0),
          ("data_vault", Value.num 0)]),
       ("likely_modeling_pattern", Value.str "star_schema")] :=
  claim_C5_star_double_count "select a from x join dim_y on a.id = b.id"
    (by decide) (by decide) (by decide)

/-- C9: when translation succeeds and the output directory is created but
writing the output fails, the outcome is a terminal error record that still
carries the full translated text (the `translated_content` field is the
translation result, not null) while `saved_path` is null. -/
theorem claim_C9_write_failure_keeps_translation (env : Env) (fs : FS)
    (translator : String → String → String → Except String String)
    (e fp sw tw src t : String)
    (hread : readFile (fs (projectRoot env)) fp = Except.ok src)
    (htr : translator src sw tw = Except.ok t) :
    dbt_translate env fs translator none (some e) fp sw tw = Except.ok
      [("status", Value.str "error"),
       ("message", Value.str ("Error writing translated file: " ++ e)),
       ("translated_content", Value.str t),
       ("saved_path", Value.null)] ∧
    Value.str t ≠ Value.null := by
  have hex : (findFile (fs (projectRoot env)) fp).isSome = true := by
    rcases hf : findFile (fs (projectRoot env)) fp with _ | f
    · unfold readFile at hread
      rw [hf] at hread
      cases hread
    · rfl
  constructor
  · simp only [dbt_translate, hex, translateResolved, hread, htr, if_true]
  · exact fun h => Value.noConfusion h

/-- Witness for C9 at a concrete project and failing write. -/
theorem claim_C9_witness :
    dbt_translate env0 fs6 trOk none (some "disk full") "models/staging/stg_users.sql"
        "snowflake" "bigquery" = Except.ok
      [("status", Value.str "error"),
       ("message", Value.str ("Error writing translated file: " ++ "disk full")),
       ("translated_content", Value.str "TRANSLATED"),
       ("saved_path", Value.null)] ∧
    Value.str "TRANSLATED" ≠ Value.null :=
  claim_C9_write_failure_keeps_translation env0 fs6 trOk "disk full"
    "models/staging/stg_users.sql" "snowflake" "bigquery" "select 1" "TRANSLATED" rfl rfl

/-- C3 counterexample: the claimed normalization strips only a *trailing*
`.sql` and admits no further match condition, but the code removes *every*
occurrence of `.sql` (term `x.sqly` becomes `xy`) and also matches on the
basename of the term; so `x.sqly` resolves to `models/xy.sql` although the
predicate stated by the claim rejects that file. -/
theorem claim_C3_counterexample :
    _search_for_files env0 fs3 "/proj" "x.sqly" = ["models/xy.sql"] ∧
    claimMatches "x.sqly" "models/xy.sql" = false := by
  exact ⟨rfl, rfl⟩

/-- C3 amended: the term is lower-cased and every occurrence of `.sql` is
removed (not only a trailing one); the basename of the term is normalized the
same way; a candidate file (under the four searched directories with a
searched extension) is returned iff the normalized basename is a substring of
the lower-cased stem, or the normalized term is a substring of the stem, or
the normalized term is a substring of the lower-cased relative path
(substring includes equality); nothing else qualifies. -/
theorem claim_C3_amended (env : Env) (fs : FS) (dbt_root term p : String)
    (extensions : List String) :
    p ∈ _search_for_files env fs dbt_root term extensions ↔
      ∃ f ∈ eligibleFiles (fs (projectRoot env)) extensions,
        f.relPath = p ∧
        (strContains (lowerStr (stemOf f.relPath)) (removeSql (lowerStr (pathName term))) ||
         strContains (lowerStr (stemOf f.relPath)) (removeSql (lowerStr term)) ||
         strContains (lowerStr f.relPath) (removeSql (lowerStr term))) = true := by
  unfold _search_for_files
  rw [mem_sortStrings, mem_dedupStrs]
  simp only [List.mem_map, List.mem_filter]
  constructor
  · rintro ⟨f, ⟨hfe, hfm⟩, hfp⟩
    refine ⟨f, hfe, hfp, ?_⟩
    rw [← fileMatches_eq]
    exact hfm
  · rintro ⟨f, hfe, hfp, hcond⟩
    refine ⟨f, ⟨hfe, ?_⟩, hfp⟩
    rw [fileMatches_eq]
    exact hcond

/-- C2 counterexample: in schema classification a single unreadable file
aborts the whole scan — `analyze_dbt_schema` surfaces the read exception even
though a second, readable model follows, contradicting the claim that read
failures are swallowed during both bulk scans. -/
theorem claim_C2_counterexample :
    analyze_dbt_schema env0 fsBad (some "/proj") = Except.error "Permission denied" := rfl

/-- C2 amended: during the dialect scan a per-file read failure is swallowed
and the remaining files are still processed (removing an unreadable file does
not change the scan result); during schema classification, however, the first
read failure on a `.sql` file propagates and aborts the scan. -/
theorem claim_C2_amended :
    (∀ (oracle : String → String → Bool) (root : String) (patterns : List String)
       (xs : List FSFile) (bad : FSFile) (ys : List FSFile) (e : String),
       bad.content = Except.error e →
       scanLoop oracle root patterns (xs ++ bad :: ys) =
         scanLoop oracle root patterns (xs ++ ys)) ∧
    (∀ (xs : List FSFile) (bad : FSFile) (ys : List FSFile)
       (acc : Nat × Nat × Nat) (e : String),
       (∀ f ∈ xs, f.content.isOk = true ∨ strEndsWith f.relPath ".sql" = false) →
       bad.content = Except.error e →
       strEndsWith bad.relPath ".sql" = true →
       classifyLoop (xs ++ bad :: ys) acc = Except.error e) :=
  ⟨fun oracle root patterns xs bad ys e h =>
     scanLoop_skip_error oracle root patterns xs bad ys e h,
   fun xs bad ys acc e h1 h2 h3 => classifyLoop_error bad ys acc e h1 h2 h3⟩

/-- Witness for C2 at a concrete unreadable file. -/
theorem claim_C2_witness :
    scanLoop oracleNone "/proj" []
        ([] ++ (⟨"models/bad.sql", Except.error "boom"⟩ : FSFile) :: []) =
      scanLoop oracleNone "/proj" [] ([] ++ []) ∧
    classifyLoop ([] ++ (⟨"models/bad.sql", Except.error "boom"⟩ : FSFile) :: []) (0, 0, 0) =
      Except.error "boom" :=
  ⟨claim_C2_amended.1 oracleNone "/proj" [] []
     (⟨"models/bad.sql", Except.error "boom"⟩ : FSFile) [] "boom" rfl,
   claim_C2_amended.2 [] (⟨"models/bad.sql", Except.error "boom"⟩ : FSFile) [] (0, 0, 0)
     "boom" (by simp) rfl rfl⟩

/-- C7 counterexample: the tag `SNOWFLAKE` is not a member of the fixed set
(the catalog has no such key), yet the scan does not fail — validation
lower-cases the tag first, so the scan proceeds and reports success. -/
theorem claim_C7_counterexample :
    WAREHOUSE_PATTERNS.lookup "SNOWFLAKE" = none ∧
    getKey (dbt_identify_translation_candidates oracleNone env0 fsEmpty "SNOWFLAKE" none)
        "status" = some (Value.str "success") :=
  ⟨rfl, rfl⟩

/-- C7 amended: for every tag whose *lower-casing* is not in
{snowflake, bigquery, redshift, postgres} the scan returns the structured
UnknownWarehouse error with an empty candidate list, and that result is
independent of the file system, the regex oracle and the environment (the
rejection precedes any file I/O); for every tag whose lower-casing is in the
set, the scan returns a success status. -/
theorem claim_C7_amended (source_warehouse : String) :
    (WAREHOUSE_PATTERNS.lookup (lowerStr source_warehouse) = none →
      (∀ (oracle : String → String → Bool) (env : Env) (fs : FS) (tw : Option String),
        dbt_identify_translation_candidates oracle env fs source_warehouse tw =
          [("status", Value.str "error"),
           ("message", Value.str ("Unknown source warehouse " ++ squote ++
              source_warehouse ++ squote ++ ". Supported: " ++
              String.intercalate ", " (WAREHOUSE_PATTERNS.map (fun p => p.1)))),
           ("candidates", Value.list [])]) ∧
      (∀ (oracle oracle2 : String → String → Bool) (env env2 : Env) (fs fs2 : FS)
         (tw : Option String),
        dbt_identify_translation_candidates oracle env fs source_warehouse tw =
          dbt_identify_translation_candidates oracle2 env2 fs2 source_warehouse tw)) ∧
    ((WAREHOUSE_PATTERNS.lookup (lowerStr source_warehouse)).isSome = true →
      ∀ (oracle : String → String → Bool) (env : Env) (fs : FS) (tw : Option String),
        getKey (dbt_identify_translation_candidates oracle env fs source_warehouse tw)
            "status" = some (Value.str "success")) := by
  constructor
  · intro h
    constructor
    · intro oracle env fs tw
      simp only [dbt_identify_translation_candidates, h]
    · intro oracle oracle2 env env2 fs fs2 tw
      simp only [dbt_identify_translation_candidates, h]
  · intro h oracle env fs tw
    rcases hl : WAREHOUSE_PATTERNS.lookup (lowerStr source_warehouse) with _ | pats
    · rw [hl] at h
      cases h
    · simp only [dbt_identify_translation_candidates, hl]
      by_cases hemp : (sortCands (scanLoop oracle (projectRoot env) pats
          (scanEligible (fs (projectRoot env))))).isEmpty = true
      · rw [if_pos hemp]
        rfl
      · rw [if_neg hemp]
        rfl

/-- Witness for C7 at the unknown tag `frobnitz` and the known tag
`snowflake`. -/
theorem claim_C7_witness :
    dbt_identify_translation_candidates oracleNone env0 fsEmpty "frobnitz" none =
      [("status", Value.str "error"),
       ("message", Value.str ("Unknown source warehouse " ++ squote ++ "frobnitz" ++
          squote ++ ". Supported: " ++
          String.intercalate ", " (WAREHOUSE_PATTERNS.map (fun p => p.1)))),
       ("candidates", Value.list [])] ∧
    getKey (dbt_identify_translation_candidates oracleNone env0 fsEmpty "snowflake" none)
        "status" = some (Value.str "success") :=
  ⟨((claim_C7_amended "frobnitz").1 rfl).1 oracleNone env0 fsEmpty none,
   (claim_C7_amended "snowflake").2 rfl oracleNone env0 fsEmpty none⟩

/-- C8: for every candidate produced by the dialect scan, the reported
`pattern_count` equals the length of the deduplicated `detected_syntax`
label list — within each warehouse the per-pattern descriptions are pairwise
distinct and each pattern fires at most once per file, so the raw hit list
never holds duplicates. -/
theorem claim_C8_pattern_count_distinct (w : String) (pats : List String)
    (h : WAREHOUSE_PATTERNS.lookup w = some pats)
    (oracle : String → String → Bool) (root : String) (files : List FSFile)
    (c : Candidate) (hc : c ∈ sortCands (scanLoop oracle root pats files)) :
    c.pattern_count = c.detected_labels.length :=
  scanLoop_count oracle root pats (descs_nodup w pats h) files c (mem_sortCands.mp hc)

/-- Witness for C8 at a file matching all eight snowflake patterns. -/
theorem claim_C8_witness :
    cand8.pattern_count = cand8.detected_labels.length :=
  claim_C8_pattern_count_distinct "snowflake" snowPats rfl oracleAll "/proj"
    [⟨"models/a.sql", Except.ok "x"⟩] cand8 (by decide)

/-- C6: when the requested path does not exist, routing branches on the
number of file-resolution matches: zero matches gives a terminal error record
whose message asks for the full path; exactly one match is silently
substituted and processing proceeds as Found (whenever that tail returns a
record, it is never a clarification outcome); two or more matches give a
terminal clarification_needed record carrying the candidate list capped at 10
together with the original caller-supplied path. -/
theorem claim_C6_resolution_branches (env : Env) (fs : FS)
    (translator : String → String → String → Except String String)
    (mkdirFail writeFail : Option String) (fp sw tw : String)
    (hne : (findFile (fs (projectRoot env)) fp).isSome = false) :
    (_search_for_files env fs (projectRoot env) fp = [] →
      dbt_translate env fs translator mkdirFail writeFail fp sw tw = Except.ok
        [("status", Value.str "error"),
         ("message", Value.str ("File not found at " ++ squote ++ fp ++ squote ++
            ". No similar files found in the dbt project. Please provide the full path relative to the dbt project root.")),
         ("translated_content", Value.null),
         ("saved_path", Value.null),
         ("suggestions", Value.list [])]) ∧
    ((_search_for_files env fs (projectRoot env) fp).length = 1 →
      dbt_translate env fs translator mkdirFail writeFail fp sw tw =
        translateResolved env fs translator mkdirFail writeFail
          ((_search_for_files env fs (projectRoot env) fp).headD "") sw tw fp ∧
      ∀ (r : Result),
        translateResolved env fs translator mkdirFail writeFail
            ((_search_for_files env fs (projectRoot env) fp).headD "") sw tw fp =
          Except.ok r →
        getKey r "status" ≠ some (Value.str "clarification_needed")) ∧
    (2 ≤ (_search_for_files env fs (projectRoot env) fp).length →
      dbt_translate env fs translator mkdirFail writeFail fp sw tw = Except.ok
        [("status", Value.str "clarification_needed"),
         ("message", Value.str ("File not found at exact path " ++ squote ++ fp ++
            squote ++ ". Found " ++
            toString (_search_for_files env fs (projectRoot env) fp).length ++
            " possible matches:\n  - " ++
            String.intercalate "\n  - " ((_search_for_files env fs (projectRoot env) fp).take 10) ++
            "\n\nPlease specify which file you want to translate using the full path from the list above.")),
         ("translated_content", Value.null),
         ("saved_path", Value.null),
         ("suggestions", Value.list (((_search_for_files env fs (projectRoot env) fp).take 10).map Value.str)),
         ("original_path", Value.str fp)]) := by
  have hif : ¬ ((findFile (fs (projectRoot env)) fp).isSome = true) := by
    rw [hne]
    exact Bool.false_ne_true
  refine ⟨?_, ?_, ?_⟩
  · intro h
    simp only [dbt_translate, if_neg hif, h]
    rfl
  · intro h
    have hemp : (_search_for_files env fs (projectRoot env) fp).isEmpty = false := by
      rcases hl : _search_for_files env fs (projectRoot env) fp with _ | ⟨a, as⟩
      · rw [hl] at h
        cases h
      · rfl
    have hone : ((_search_for_files env fs (projectRoot env) fp).length == 1) = true := by
      rw [h]
      rfl
    constructor
    · simp only [dbt_translate, if_neg hif, hemp, Bool.false_eq_true, if_false, hone, if_true]
    · intro r hr
      rcases translateResolved_status env fs translator mkdirFail writeFail
        ((_search_for_files env fs (projectRoot env) fp).headD "") sw tw fp r hr
        with ⟨hst, _⟩
      rcases hst with h1 | h1 <;> rw [h1] <;> intro hx <;>
        exact absurd (Value.str.inj (Option.some.inj hx)) (by decide)
  · intro h
    have hemp : (_search_for_files env fs (projectRoot env) fp).isEmpty = false := by
      rcases hl : _search_for_files env fs (projectRoot env) fp with _ | ⟨a, as⟩
      · rw [hl] at h
        cases h
      · rfl
    have hone : ((_search_for_files env fs (projectRoot env) fp).length == 1) = false := by
      have hne1 : (_search_for_files env fs (projectRoot env) fp).length ≠ 1 := by omega
      exact beq_eq_false_iff_ne.mpr hne1
    simp only [dbt_translate, if_neg hif, hemp, Bool.false_eq_true, if_false, hone]

/-- Witness for C6: `stg_users` misses as an exact path, resolves to exactly
one file, and routing proceeds without a clarification outcome. -/
theorem claim_C6_witness :
    dbt_translate env0 fs6 trOk none none "stg_users" "snowflake" "bigquery" =
      translateResolved env0 fs6 trOk none none
        ((_search_for_files env0 fs6 (projectRoot env0) "stg_users").headD "")
        "snowflake" "bigquery" "stg_users" ∧
    ∀ (r : Result),
      translateResolved env0 fs6 trOk none none
          ((_search_for_files env0 fs6 (projectRoot env0) "stg_users").headD "")
          "snowflake" "bigquery" "stg_users" = Except.ok r →
      getKey r "status" ≠ some (Value.str "clarification_needed") :=
  (claim_C6_resolution_branches env0 fs6 trOk none none "stg_users" "snowflake" "bigquery"
    (by decide)).2.1 (by decide)

/-- C1 counterexample: the compile wrapper returns only `returncode` and
`logs` — there is no `status` and no `message` field in its result, so not
every public operation returns the claimed structured record. -/
theorem claim_C1_counterexample :
    getKey (dbt_compile (fun _ => none) env0 "" 0 [] []) "status" = none ∧
    getKey (dbt_compile (fun _ => none) env0 "" 0 [] []) "message" = none :=
  ⟨rfl, rfl⟩

/-- C1 amended: whenever `dbt_translate` returns a record, its `status` is
one of success / error / clarification_needed and a `message` is present; the
one exception, faithful to the source, is a failure of the output-directory
`mkdir` after a successful translation, which raises an uncaught exception
and returns no record at all. `dbt_identify_translation_candidates` always
returns such a record. The compile wrapper and the schema classification
never carry a `status` or `message` field. -/
theorem claim_C1_amended :
    (∀ (env : Env) (fs : FS)
       (translator : String → String → String → Except String String)
       (mkdirFail writeFail : Option String) (fp sw tw : String),
      match dbt_translate env fs translator mkdirFail writeFail fp sw tw with
      | Except.ok r =>
        (getKey r "status" = some (Value.str "success") ∨
         getKey r "status" = some (Value.str "error") ∨
         getKey r "status" = some (Value.str "clarification_needed")) ∧
        (getKey r "message").isSome = true
      | Except.error _ => True) ∧
    (∀ (env : Env) (fs : FS)
       (translator : String → String → String → Except String String)
       (writeFail : Option String) (fp sw tw src t e : String),
      readFile (fs (projectRoot env)) fp = Except.ok src →
      translator src sw tw = Except.ok t →
      dbt_translate env fs translator (some e) writeFail fp sw tw = Except.error e) ∧
    (∀ (oracle : String → String → Bool) (env : Env) (fs : FS) (sw : String)
       (tw : Option String),
      (getKey (dbt_identify_translation_candidates oracle env fs sw tw) "status" =
          some (Value.str "success") ∨
       getKey (dbt_identify_translation_candidates oracle env fs sw tw) "status" =
          some (Value.str "error")) ∧
      (getKey (dbt_identify_translation_candidates oracle env fs sw tw) "message").isSome
        = true) ∧
    (∀ (jsonParse : String → Option Value) (env : Env) (c : String) (rc : Int)
       (so se : List String),
      getKey (dbt_compile jsonParse env c rc so se) "status" = none ∧
      getKey (dbt_compile jsonParse env c rc so se) "message" = none) ∧
    (∀ (env : Env) (fs : FS) (pd : Option String),
      match analyze_dbt_schema env fs pd with
      | Except.ok r => getKey r "status" = none ∧ getKey r "message" = none
      | Except.error _ => True) := by
  refine ⟨?_, ?_, ?_, ?_, ?_⟩
  · intro env fs translator mkdirFail writeFail fp sw tw
    by_cases hex : (findFile (fs (projectRoot env)) fp).isSome = true
    · simp only [dbt_translate, hex, if_true]
      rcases hr : translateResolved env fs translator mkdirFail writeFail fp sw tw fp
        with e | r
      · trivial
      · exact
          match translateResolved_status env fs translator mkdirFail writeFail
            fp sw tw fp r hr with
          | ⟨hst, hmsg⟩ =>
            ⟨hst.elim (fun h => Or.inl h) (fun h => Or.inr (Or.inl h)), hmsg⟩
    · by_cases hemp : (_search_for_files env fs (projectRoot env) fp).isEmpty = true
      · simp only [dbt_translate, if_neg hex, hemp, if_true]
        exact ⟨Or.inr (Or.inl rfl), rfl⟩
      · by_cases hone :
            ((_search_for_files env fs (projectRoot env) fp).length == 1) = true
        · simp only [dbt_translate, if_neg hex, hemp, Bool.false_eq_true, if_false,
            hone, if_true]
          rcases hr : translateResolved env fs translator mkdirFail writeFail
            ((_search_for_files env fs (projectRoot env) fp).headD "") sw tw fp
            with e | r
          · trivial
          · exact
              match translateResolved_status env fs translator mkdirFail writeFail
                ((_search_for_files env fs (projectRoot env) fp).headD "") sw tw fp r hr with
              | ⟨hst, hmsg⟩ =>
                ⟨hst.elim (fun h => Or.inl h) (fun h => Or.inr (Or.inl h)), hmsg⟩
        · simp only [dbt_translate, if_neg hex, hemp, Bool.false_eq_true, if_false,
            hone]
          exact ⟨Or.inr (Or.inr rfl), rfl⟩
  · intro env fs translator writeFail fp sw tw src t e hread htr
    have hex : (findFile (fs (projectRoot env)) fp).isSome = true := by
      rcases hf : findFile (fs (projectRoot env)) fp with _ | f
      · unfold readFile at hread
        rw [hf] at hread
        cases hread
      · rfl
    simp only [dbt_translate, hex, translateResolved, hread, htr, if_true]
  · intro oracle env fs sw tw
    rcases hl : WAREHOUSE_PATTERNS.lookup (lowerStr sw) with _ | pats
    · simp only [dbt_identify_translation_candidates, hl]
      exact ⟨Or.inr rfl, rfl⟩
    · simp only [dbt_identify_translation_candidates, hl]
      by_cases hemp : (sortCands (scanLoop oracle (projectRoot env) pats
          (scanEligible (fs (projectRoot env))))).isEmpty = true
      · rw [if_pos hemp]
        exact ⟨Or.inl rfl, rfl⟩
      · rw [if_neg hemp]
        exact ⟨Or.inl rfl, rfl⟩
  · intro jsonParse env c rc so se
    exact ⟨rfl, rfl⟩
  · intro env fs pd
    rcases ho : orFalsy pd (env.getvar "DBT_PROJECT_LOCATION") with _ | pdv
    · simp only [analyze_dbt_schema, ho]
    · rcases hcl : classifyLoop (fs (joinPath pdv "target/compiled")) (0, 0, 0)
        with e | scores
      · simp only [analyze_dbt_schema, ho, hcl]
      · simp only [analyze_dbt_schema, ho, hcl]
        exact ⟨rfl, rfl⟩

/-- Witness for C1: a concrete run in which the translation succeeds and the
output-directory creation fails, so the call raises instead of returning a
record. -/
theorem claim_C1_witness :
    dbt_translate env0 fs6 trOk (some "mkdir failed") none
        "models/staging/stg_users.sql" "snowflake" "bigquery" =
      Except.error "mkdir failed" :=
  claim_C1_amended.2.1 env0 fs6 trOk none "models/staging/stg_users.sql"
    "snowflake" "bigquery" "select 1" "TRANSLATED" "mkdir failed" rfl rfl
